import Mathlib

/-!
Shallow embedding of `src/textual/design.py`: the `ColorSystem` theme-palette
generator.  The external `Color` value type (`textual/color.py`) is not part of
the source slice, so its operations are modelled from the specification's
contract (spec §3); everything else is translated directly from `design.py`.
-/

/-- Modelled from the spec: the external `Color` value type (`textual.color.Color`
is absent from the source slice).  An immutable color with red/green/blue
channels (conceptually 0–255) and an alpha channel (0–1), held as exact
rationals. -/
structure Color where
  red : ℚ
  green : ℚ
  blue : ℚ
  alpha : ℚ := 1
  deriving DecidableEq, Repr

/-- Pure white reference color (design.py imports `WHITE` from the color module). -/
def WHITE : Color := ⟨255, 255, 255, 1⟩

/-- Pure black reference color. -/
def BLACK : Color := ⟨0, 0, 0, 1⟩

/-- Modelled from the spec: `blend(other, ratio)` — linear blend of every channel
toward the other color by the given ratio; pure, returns a new value. -/
def Color.blend (self other : Color) (amount : ℚ) : Color :=
  ⟨self.red + (other.red - self.red) * amount,
   self.green + (other.green - self.green) * amount,
   self.blue + (other.blue - self.blue) * amount,
   self.alpha + (other.alpha - self.alpha) * amount⟩

/-- Modelled from the spec: `lighten(delta)` — lighten by a signed delta
(negative delta darkens): blend toward pure white for nonnegative delta and
toward pure black for negative delta. -/
def Color.lighten (self : Color) (delta : ℚ) : Color :=
  if 0 ≤ delta then self.blend WHITE delta else self.blend BLACK (-delta)

/-- Clamp one RGB channel to the displayable range 0–255. -/
def clampChannel (x : ℚ) : ℚ := max 0 (min 255 x)

/-- Modelled from the spec: `clamp()` — clamp all channels to the displayable
range. -/
def Color.clamped (self : Color) : Color :=
  ⟨clampChannel self.red, clampChannel self.green, clampChannel self.blue,
   max 0 (min 1 self.alpha)⟩

/-- Modelled from the spec: perceived brightness, used to select a contrasting
foreground. -/
def Color.brightness (self : Color) : ℚ :=
  (self.red * 299 + self.green * 587 + self.blue * 114) / 1000

/-- Modelled from the spec: `contrastForeground(alpha)` / `get_contrast_text` —
the contrasting foreground at the given alpha: pure white or pure black,
whichever contrasts more in brightness, carrying the requested alpha. -/
def Color.get_contrast_text (self : Color) (alpha : ℚ) : Color :=
  let fg :=
    if |WHITE.brightness - self.brightness| ≥ |BLACK.brightness - self.brightness|
    then WHITE else BLACK
  { fg with alpha := alpha }

/-- Hexadecimal digit characters, lowercase. -/
def hexDigitChar (n : Nat) : Char :=
  "0123456789abcdef".toList.getD n '0'

/-- Two-digit lowercase hexadecimal rendering of a byte value. -/
def toHexByte (n : Nat) : String :=
  String.mk [hexDigitChar (n / 16 % 16), hexDigitChar (n % 16)]

/-- Modelled from the spec: the hex-string form `#rrggbb` of a color (spec §6
palette representation), clamped to the displayable range and rounded to whole
channel values. -/
def Color.hex (self : Color) : String :=
  let c := self.clamped
  "#" ++ toHexByte (round c.red).toNat ++ toHexByte (round c.green).toNat
      ++ toHexByte (round c.blue).toNat

/-- Modelled from the spec: the CSS string form of a color (used by
`ColorProperty.__set__` to store an assigned Color value). -/
def Color.css (self : Color) : String := self.hex

/-- Numeric value of one hexadecimal digit character, if any. -/
def hexVal (c : Char) : Option Nat :=
  if ('0' ≤ c ∧ c ≤ '9') then some (c.toNat - '0'.toNat)
  else if ('a' ≤ c ∧ c ≤ 'f') then some (c.toNat - 'a'.toNat + 10)
  else if ('A' ≤ c ∧ c ≤ 'F') then some (c.toNat - 'A'.toNat + 10)
  else none

/-- Modelled from the spec: `Color.parse` — parse a color from a `#rrggbb` hex
string, failing on malformed input. -/
def Color.parse (s : String) : Except String Color :=
  match s.toList with
  | ['#', r1, r2, g1, g2, b1, b2] =>
    match hexVal r1, hexVal r2, hexVal g1, hexVal g2, hexVal b1, hexVal b2 with
    | some hr1, some hr2, some hg1, some hg2, some hb1, some hb2 =>
        .ok ⟨((16 * hr1 + hr2 : ℕ) : ℚ), ((16 * hg1 + hg2 : ℕ) : ℚ),
             ((16 * hb1 + hb2 : ℕ) : ℚ), 1⟩
    | _, _, _, _, _, _ => .error (s ++ " is not a valid color")
  | _ => .error (s ++ " is not a valid color")

/-- design.py line 12. -/
def NUMBER_OF_SHADES : ℕ := 3

/-- design.py line 14. -/
def DEFAULT_DARK_BACKGROUND : String := "#000000"

/-- design.py line 15. -/
def DEFAULT_DARK_SURFACE : String := "#121212"

/-- design.py line 16. -/
def DEFAULT_LIGHT_BACKGROUND : String := "#f5f5f5"

/-- design.py line 17. -/
def DEFAULT_LIGHT_SURFACE : String := "#efefef"

/-- Embeds `ColorSystem.__init__` (design.py lines 63–83): the raw
designer-supplied strings, stored verbatim, each optional field defaulting to
unset.  Construction performs no parsing. -/
structure ColorSystem where
  _primary : String
  _secondary : Option String := none
  _warning : Option String := none
  _error : Option String := none
  _success : Option String := none
  _accent1 : Option String := none
  _accent2 : Option String := none
  _background : Option String := none
  _surface : Option String := none
  deriving DecidableEq, Repr

/-- design.py lines 51–61: `ColorSystem.COLOR_NAMES`. -/
def ColorSystem.COLOR_NAMES : List String :=
  ["primary", "secondary", "background", "surface", "warning", "error",
   "success", "accent1", "accent2"]

/-- Embeds the `primary` property (design.py lines 85–88): parse the stored
string on every read. -/
def ColorSystem.primary (self : ColorSystem) : Except String Color :=
  Color.parse self._primary

/-- Embeds `ColorProperty.__get__` (design.py lines 26–33): `none` when the
field is unset, otherwise the stored string is parsed on every read (a parse
failure surfaces here, at read time). -/
def readColorProperty (raw : Option String) : Except String (Option Color) :=
  match raw with
  | none => .ok none
  | some s => (Color.parse s).map some

/-- The `secondary` descriptor read (design.py line 90). -/
def ColorSystem.secondary (self : ColorSystem) : Except String (Option Color) :=
  readColorProperty self._secondary

/-- The `warning` descriptor read (design.py line 91). -/
def ColorSystem.warning (self : ColorSystem) : Except String (Option Color) :=
  readColorProperty self._warning

/-- The `error` descriptor read (design.py line 92). -/
def ColorSystem.error (self : ColorSystem) : Except String (Option Color) :=
  readColorProperty self._error

/-- The `success` descriptor read (design.py line 93). -/
def ColorSystem.success (self : ColorSystem) : Except String (Option Color) :=
  readColorProperty self._success

/-- The `accent1` descriptor read (design.py line 94). -/
def ColorSystem.accent1 (self : ColorSystem) : Except String (Option Color) :=
  readColorProperty self._accent1

/-- The `accent2` descriptor read (design.py line 95). -/
def ColorSystem.accent2 (self : ColorSystem) : Except String (Option Color) :=
  readColorProperty self._accent2

/-- The `surface` descriptor read (design.py line 96). -/
def ColorSystem.surface (self : ColorSystem) : Except String (Option Color) :=
  readColorProperty self._surface

/-- The `background` descriptor read (design.py line 97). -/
def ColorSystem.background (self : ColorSystem) : Except String (Option Color) :=
  readColorProperty self._background

/-- The eight optional color fields that are backed by a `ColorProperty`
descriptor (design.py lines 90–97). -/
inductive ColorField
  | secondary | warning | error | success | accent1 | accent2 | surface | background
  deriving DecidableEq, Repr

/-- Embeds `ColorProperty.__set__` (design.py lines 35–39): assigning to a
descriptor-backed field stores the css string of a Color value, or any other
value (a raw string or `None`) verbatim, producing the updated record. -/
def ColorProperty.set (self : ColorSystem) (f : ColorField)
    (value : Color ⊕ Option String) : ColorSystem :=
  let raw : Option String :=
    match value with
    | .inl c => some c.css
    | .inr v => v
  match f with
  | .secondary => { self with _secondary := raw }
  | .warning => { self with _warning := raw }
  | .error => { self with _error := raw }
  | .success => { self with _success := raw }
  | .accent1 => { self with _accent1 := raw }
  | .accent2 => { self with _accent2 := raw }
  | .surface => { self with _surface := raw }
  | .background => { self with _background := raw }

/-- Embeds the `shades` property (design.py lines 99–109): the names of the
colors and derived shades, in declaration order. -/
def ColorSystem.shades : List String :=
  ColorSystem.COLOR_NAMES.flatMap fun color =>
    (List.range (2 * NUMBER_OF_SHADES + 1)).map fun i =>
      let shade_number : ℤ := (i : ℤ) - (NUMBER_OF_SHADES : ℤ)
      if shade_number < 0 then color ++ "-darken-" ++ toString shade_number.natAbs
      else if shade_number > 0 then color ++ "-lighten-" ++ toString shade_number.natAbs
      else color

/-- The shade-name suffix yielded by `luminosity_range` for shade point `n`
(design.py lines 157–163): `-darken-<n>` for negative points, `-lighten-<n>`
for positive points, empty for point 0. -/
def shadeSuffix (n : ℤ) : String :=
  (if n < 0 then "-darken" else if n > 0 then "-lighten" else "") ++
    (if n ≠ 0 then "-" ++ toString n.natAbs else "")

/-- Embeds `luminosity_range` (design.py lines 148–163): the seven
(shade-suffix, luminosity-delta) pairs from darken-3 to lighten-3 for a given
spread. -/
def luminosity_range (spread : ℚ) : List (String × ℚ) :=
  let luminosity_step := spread / 2
  (List.range (2 * NUMBER_OF_SHADES + 1)).map fun i =>
    let n : ℤ := (i : ℤ) - (NUMBER_OF_SHADES : ℤ)
    (shadeSuffix n, (n : ℚ) * luminosity_step)

/-- design.py line 179: the color names that have a dark variant. -/
def DARK_SHADES : List String := ["primary", "secondary"]

/-- The shade color computed per point in the loop body of `generate`
(design.py lines 185–192): the dark-tinted branch blends the resolved
background toward the semantic color by 12%, blends that anchor toward pure
white by (spread + delta) and clamps; the normal branch lightens the semantic
color by the delta. -/
def shadeColor (background color : Color) (is_dark_shade : Bool)
    (spread luminosity_delta : ℚ) : Color :=
  if is_dark_shade then
    let dark_background := background.blend color (12 / 100)
    (dark_background.blend WHITE (spread + luminosity_delta)).clamped
  else color.lighten luminosity_delta

/-- Embeds the shade-expansion loop of `ColorSystem.generate` (design.py lines
146–203), applied to the nine already-resolved semantic colors: for every
(name, color) pair, the seven shade entries interleaved with their text and
fade entries, in source iteration order. -/
def generatePalette (primary secondary background surface warning error success
    accent1 accent2 : Color) (dark : Bool) (luminosity_spread text_alpha : ℚ) :
    List (String × String) :=
  let COLORS : List (String × Color) :=
    [("primary", primary), ("secondary", secondary), ("background", background),
     ("surface", surface), ("warning", warning), ("error", error),
     ("success", success), ("accent1", accent1), ("accent2", accent2)]
  COLORS.flatMap fun nc =>
    let name := nc.1
    let color := nc.2
    let is_dark_shade := dark && DARK_SHADES.contains name
    let spread := if is_dark_shade then luminosity_spread / 1.5 else luminosity_spread
    (luminosity_range spread).flatMap fun sd =>
      let shade_name := sd.1
      let luminosity_delta := sd.2
      let shade_color := shadeColor background color is_dark_shade spread luminosity_delta
      (name ++ shade_name, shade_color.hex) ::
        (List.range 3).map fun fade =>
          let text_color := shade_color.get_contrast_text text_alpha
          if fade > 0 then
            ("text-" ++ name ++ shade_name ++ "-fade-" ++ toString fade,
              (text_color.blend shade_color ((fade : ℚ) * 0.1 + 0.15)).hex)
          else ("text-" ++ name ++ shade_name, text_color.hex)

/-- Embeds `ColorSystem.generate` (design.py lines 111–203): resolve the nine
semantic colors through the fallback chain (lines 130–144, each optional field
read through its descriptor, so a parse failure surfaces here), then expand the
shade and text entries. -/
def ColorSystem.generate (self : ColorSystem) (dark : Bool := false)
    (luminosity_spread : ℚ := 0.15) (text_alpha : ℚ := 0.9) :
    Except String (List (String × String)) := do
  let primary ← self.primary
  let secondary := (← self.secondary).getD primary
  let warning := (← self.warning).getD primary
  let error := (← self.error).getD secondary
  let success := (← self.success).getD secondary
  let accent1 := (← self.accent1).getD primary
  let accent2 := (← self.accent2).getD secondary
  let background ←
    match (← self.background) with
    | some c => pure c
    | none => Color.parse (if dark then DEFAULT_DARK_BACKGROUND else DEFAULT_LIGHT_BACKGROUND)
  let surface ←
    match (← self.surface) with
    | some c => pure c
    | none => Color.parse (if dark then DEFAULT_DARK_SURFACE else DEFAULT_LIGHT_SURFACE)
  return generatePalette primary secondary background surface warning error
    success accent1 accent2 dark luminosity_spread text_alpha

def allPaletteKeys : List String :=
  ColorSystem.shades.flatMap fun sh =>
    [sh, "text-" ++ sh, "text-" ++ sh ++ "-fade-1", "text-" ++ sh ++ "-fade-2"]

/-- The raw stored string behind each descriptor-backed field (the `_name`
attribute written by `__set_name__`, design.py lines 23–24). -/
def rawField (self : ColorSystem) : ColorField → Option String
  | .secondary => self._secondary
  | .warning => self._warning
  | .error => self._error
  | .success => self._success
  | .accent1 => self._accent1
  | .accent2 => self._accent2
  | .surface => self._surface
  | .background => self._background

/-- Recognizes a six-digit lowercase hex color string of the form `#rrggbb`. -/
def isRgbHexString (s : String) : Bool :=
  match s.toList with
  | '#' :: rest =>
      rest.length == 6 && rest.all fun ch => "0123456789abcdef".toList.contains ch
  | _ => false

def exampleSystem : ColorSystem :=
  { _primary := "#005EA8", _secondary := some "#F59402", _warning := some "#ffa000",
    _error := some "#C62828", _success := some "#558B2F" }

def examplePalette : List (String × String) :=
  ((exampleSystem.generate false 0.15 0.9).toOption).getD []

def primaryOnlySystem : ColorSystem := { _primary := "#005EA8" }

def sampleColor : Color := ⟨10, 20, 30, 1⟩

def sampleBg : Color := ⟨1, 2, 3, 1⟩

/-- A numeric code for a string: its characters read as base-256 digits.  Used
only to decide name-distinctness cheaply. -/
def stringCode (s : String) : ℕ :=
  s.toList.foldl (fun a c => a * 256 + c.toNat) 0

set_option maxRecDepth 10000 in
theorem palette_keys_eq (p s bg sf w e su a1 a2 : Color) (dark : Bool) (ls ta : ℚ) :
    (generatePalette p s bg sf w e su a1 a2 dark ls ta).map Prod.fst =
      allPaletteKeys := rfl

theorem lookup_eq_of_mem {α β : Type} [BEq α] [LawfulBEq α] {l : List (α × β)} {k : α} {v : β}
    (hnd : (l.map Prod.fst).Nodup) (hmem : (k, v) ∈ l) : l.lookup k = some v := by
  induction l with
  | nil => cases hmem
  | cons hd tl ih =>
    obtain ⟨k', v'⟩ := hd
    rcases List.mem_cons.1 hmem with heq | htl
    · cases heq
      simp [List.lookup]
    · simp only [List.map_cons, List.nodup_cons] at hnd
      have hk : ¬ (k == k') = true := by
        intro hkk
        exact hnd.1 (eq_of_beq hkk ▸ (List.mem_map.2 ⟨(k, v), htl, rfl⟩))
      rw [List.lookup, Bool.of_not_eq_true hk]
      exact ih hnd.2 htl

theorem suffix_delta_mem (spread : ℚ) (n : ℤ) (h1 : -3 ≤ n) (h2 : n ≤ 3) :
    (shadeSuffix n, (n : ℚ) * (spread / 2)) ∈ luminosity_range spread := by
  unfold luminosity_range
  interval_cases n
  · exact List.mem_map.2 ⟨0, by decide, rfl⟩
  · exact List.mem_map.2 ⟨1, by decide, rfl⟩
  · exact List.mem_map.2 ⟨2, by decide, rfl⟩
  · exact List.mem_map.2 ⟨3, by decide, rfl⟩
  · exact List.mem_map.2 ⟨4, by decide, rfl⟩
  · exact List.mem_map.2 ⟨5, by decide, rfl⟩
  · exact List.mem_map.2 ⟨6, by decide, rfl⟩

theorem shade_entry_mem (p s bg sf w e su a1 a2 : Color) (dark : Bool) (ls ta : ℚ)
    (name : String) (color : Color)
    (hname : (name, color) ∈ [("primary", p), ("secondary", s), ("background", bg),
      ("surface", sf), ("warning", w), ("error", e), ("success", su),
      ("accent1", a1), ("accent2", a2)])
    (sd : String × ℚ)
    (hsd : sd ∈ luminosity_range
      (if dark && DARK_SHADES.contains name then ls / 1.5 else ls)) :
    (name ++ sd.1,
      (shadeColor bg color (dark && DARK_SHADES.contains name)
        (if dark && DARK_SHADES.contains name then ls / 1.5 else ls) sd.2).hex) ∈
      generatePalette p s bg sf w e su a1 a2 dark ls ta := by
  unfold generatePalette
  refine List.mem_flatMap.2 ⟨(name, color), hname, ?_⟩
  refine List.mem_flatMap.2 ⟨sd, hsd, ?_⟩
  exact List.mem_cons_self _ _

theorem text_entry_mem (p s bg sf w e su a1 a2 : Color) (dark : Bool) (ls ta : ℚ)
    (name : String) (color : Color)
    (hname : (name, color) ∈ [("primary", p), ("secondary", s), ("background", bg),
      ("surface", sf), ("warning", w), ("error", e), ("success", su),
      ("accent1", a1), ("accent2", a2)])
    (sd : String × ℚ)
    (hsd : sd ∈ luminosity_range
      (if dark && DARK_SHADES.contains name then ls / 1.5 else ls)) :
    ("text-" ++ name ++ sd.1,
      ((shadeColor bg color (dark && DARK_SHADES.contains name)
        (if dark && DARK_SHADES.contains name then ls / 1.5 else ls) sd.2).get_contrast_text
          ta).hex) ∈
      generatePalette p s bg sf w e su a1 a2 dark ls ta := by
  unfold generatePalette
  refine List.mem_flatMap.2 ⟨(name, color), hname, ?_⟩
  refine List.mem_flatMap.2 ⟨sd, hsd, ?_⟩
  exact List.mem_cons_of_mem _ (List.mem_map.2 ⟨0, by decide, rfl⟩)

theorem fade_entry_mem (p s bg sf w e su a1 a2 : Color) (dark : Bool) (ls ta : ℚ)
    (name : String) (color : Color)
    (hname : (name, color) ∈ [("primary", p), ("secondary", s), ("background", bg),
      ("surface", sf), ("warning", w), ("error", e), ("success", su),
      ("accent1", a1), ("accent2", a2)])
    (sd : String × ℚ)
    (hsd : sd ∈ luminosity_range
      (if dark && DARK_SHADES.contains name then ls / 1.5 else ls))
    (fade : ℕ) (hf : fade = 1 ∨ fade = 2) :
    ("text-" ++ name ++ sd.1 ++ "-fade-" ++ toString fade,
      (((shadeColor bg color (dark && DARK_SHADES.contains name)
        (if dark && DARK_SHADES.contains name then ls / 1.5 else ls) sd.2).get_contrast_text
          ta).blend
        (shadeColor bg color (dark && DARK_SHADES.contains name)
          (if dark && DARK_SHADES.contains name then ls / 1.5 else ls) sd.2)
        ((fade : ℚ) * 0.1 + 0.15)).hex) ∈
      generatePalette p s bg sf w e su a1 a2 dark ls ta := by
  unfold generatePalette
  refine List.mem_flatMap.2 ⟨(name, color), hname, ?_⟩
  refine List.mem_flatMap.2 ⟨sd, hsd, ?_⟩
  rcases hf with hf | hf
  · subst hf
    exact List.mem_cons_of_mem _ (List.mem_map.2 ⟨1, by decide, rfl⟩)
  · subst hf
    exact List.mem_cons_of_mem _ (List.mem_map.2 ⟨2, by decide, rfl⟩)

set_option maxRecDepth 10000 in
theorem allPaletteKeys_nodup : allPaletteKeys.Nodup :=
  List.Nodup.of_map stringCode (by decide)

theorem palette_keys_nodup (p s bg sf w e su a1 a2 : Color) (dark : Bool) (ls ta : ℚ) :
    ((generatePalette p s bg sf w e su a1 a2 dark ls ta).map Prod.fst).Nodup :=
  (palette_keys_eq p s bg sf w e su a1 a2 dark ls ta) ▸ allPaletteKeys_nodup

theorem generate_ok (self : ColorSystem) (dark : Bool) (ls ta : ℚ)
    (m : List (String × String)) (h : self.generate dark ls ta = .ok m) :
    ∃ p s bg sf w e su a1 a2,
      m = generatePalette p s bg sf w e su a1 a2 dark ls ta := by
  unfold ColorSystem.generate at h
  simp only [bind, Except.bind, pure, Except.pure] at h
  repeat' split at h
  all_goals cases h
  all_goals exact ⟨_, _, _, _, _, _, _, _, _, rfl⟩

theorem lighten_zero (c : Color) : c.lighten 0 = c := by
  unfold Color.lighten Color.blend
  simp

theorem lookup_shade (p s bg sf w e su a1 a2 : Color) (dark : Bool) (ls ta : ℚ)
    (name : String) (color : Color)
    (hname : (name, color) ∈ [("primary", p), ("secondary", s), ("background", bg),
      ("surface", sf), ("warning", w), ("error", e), ("success", su),
      ("accent1", a1), ("accent2", a2)])
    (n : ℤ) (h1 : -3 ≤ n) (h2 : n ≤ 3) :
    (generatePalette p s bg sf w e su a1 a2 dark ls ta).lookup (name ++ shadeSuffix n) =
      some ((shadeColor bg color (dark && DARK_SHADES.contains name)
        (if dark && DARK_SHADES.contains name then ls / 1.5 else ls)
        ((n : ℚ) * ((if dark && DARK_SHADES.contains name then ls / 1.5 else ls) / 2))).hex) :=
  lookup_eq_of_mem (palette_keys_nodup p s bg sf w e su a1 a2 dark ls ta)
    (shade_entry_mem p s bg sf w e su a1 a2 dark ls ta name color hname _
      (suffix_delta_mem _ n h1 h2))

theorem lookup_text (p s bg sf w e su a1 a2 : Color) (dark : Bool) (ls ta : ℚ)
    (name : String) (color : Color)
    (hname : (name, color) ∈ [("primary", p), ("secondary", s), ("background", bg),
      ("surface", sf), ("warning", w), ("error", e), ("success", su),
      ("accent1", a1), ("accent2", a2)])
    (n : ℤ) (h1 : -3 ≤ n) (h2 : n ≤ 3) :
    (generatePalette p s bg sf w e su a1 a2 dark ls ta).lookup
        ("text-" ++ name ++ shadeSuffix n) =
      some (((shadeColor bg color (dark && DARK_SHADES.contains name)
        (if dark && DARK_SHADES.contains name then ls / 1.5 else ls)
        ((n : ℚ) * ((if dark && DARK_SHADES.contains name then ls / 1.5 else ls) / 2))).get_contrast_text
          ta).hex) :=
  lookup_eq_of_mem (palette_keys_nodup p s bg sf w e su a1 a2 dark ls ta)
    (text_entry_mem p s bg sf w e su a1 a2 dark ls ta name color hname _
      (suffix_delta_mem _ n h1 h2))

theorem lookup_fade (p s bg sf w e su a1 a2 : Color) (dark : Bool) (ls ta : ℚ)
    (name : String) (color : Color)
    (hname : (name, color) ∈ [("primary", p), ("secondary", s), ("background", bg),
      ("surface", sf), ("warning", w), ("error", e), ("success", su),
      ("accent1", a1), ("accent2", a2)])
    (n : ℤ) (h1 : -3 ≤ n) (h2 : n ≤ 3) (fade : ℕ) (hf : fade = 1 ∨ fade = 2) :
    (generatePalette p s bg sf w e su a1 a2 dark ls ta).lookup
        ("text-" ++ name ++ shadeSuffix n ++ "-fade-" ++ toString fade) =
      some ((((shadeColor bg color (dark && DARK_SHADES.contains name)
        (if dark && DARK_SHADES.contains name then ls / 1.5 else ls)
        ((n : ℚ) * ((if dark && DARK_SHADES.contains name then ls / 1.5 else ls) / 2))).get_contrast_text
          ta).blend
        (shadeColor bg color (dark && DARK_SHADES.contains name)
          (if dark && DARK_SHADES.contains name then ls / 1.5 else ls)
          ((n : ℚ) * ((if dark && DARK_SHADES.contains name then ls / 1.5 else ls) / 2)))
        ((fade : ℚ) * 0.1 + 0.15)).hex) :=
  lookup_eq_of_mem (palette_keys_nodup p s bg sf w e su a1 a2 dark ls ta)
    (fade_entry_mem p s bg sf w e su a1 a2 dark ls ta name color hname _
      (suffix_delta_mem _ n h1 h2) fade hf)

theorem dark_flag_false {dark : Bool} {name : String}
    (hnd : dark = false ∨ name ∉ DARK_SHADES) :
    (dark && DARK_SHADES.contains name) = false := by
  rcases hnd with h | h
  · rw [h, Bool.false_and]
  · have hc : DARK_SHADES.contains name = false := by simpa using h
    rw [hc, Bool.and_false]

/-- C4: for every non-dark-tinted base name (or whenever dark mode is off) and
every shade point n in -3..3, the stored shade entry is the hex of
`lighten(n * luminosity_spread / 2)` applied to the resolved semantic color; the
suffix-less point-0 entry equals `lighten 0` of the base color, which is the
base color itself. -/
theorem C4_normal_lighten (p s bg sf w e su a1 a2 : Color) (dark : Bool) (ls ta : ℚ)
    (name : String) (color : Color)
    (hname : (name, color) ∈ [("primary", p), ("secondary", s), ("background", bg),
      ("surface", sf), ("warning", w), ("error", e), ("success", su),
      ("accent1", a1), ("accent2", a2)])
    (hnd : dark = false ∨ name ∉ DARK_SHADES)
    (n : ℤ) (h1 : -3 ≤ n) (h2 : n ≤ 3) :
    (generatePalette p s bg sf w e su a1 a2 dark ls ta).lookup (name ++ shadeSuffix n) =
      some ((color.lighten ((n : ℚ) * ls / 2)).hex) ∧
    (generatePalette p s bg sf w e su a1 a2 dark ls ta).lookup name =
      some ((color.lighten 0).hex) ∧
    color.lighten 0 = color := by
  have hflag := dark_flag_false hnd
  have hmain := lookup_shade p s bg sf w e su a1 a2 dark ls ta name color hname n h1 h2
  rw [hflag] at hmain
  simp only [if_false, Bool.false_eq_true] at hmain
  refine ⟨?_, ?_, lighten_zero color⟩
  · rw [hmain]
    congr 2
    unfold shadeColor
    rw [if_neg (by simp)]
    rw [mul_div_assoc]
  · have h0 := lookup_shade p s bg sf w e su a1 a2 dark ls ta name color hname 0
      (by decide) (by decide)
    rw [hflag] at h0
    simp only [if_false, Bool.false_eq_true] at h0
    have hkey : name ++ shadeSuffix 0 = name := by
      show name ++ "" = name
      simp
    rw [hkey] at h0
    rw [h0]
    congr 2
    unfold shadeColor
    rw [if_neg (by simp)]
    norm_num

/-- C3: in dark mode the dark-tinted names (primary, secondary) store, for each
shade point n, the hex of clamp(blend(blend(background, color, 0.12), WHITE,
spread + n * spread / 2)) with the effective spread = luminosity_spread / 1.5;
every other (name, dark) combination stores the plain lighten shade instead. -/
theorem C3_dark_blending (p s bg sf w e su a1 a2 : Color) (ls ta : ℚ)
    (name : String) (color : Color)
    (hname : (name, color) ∈ [("primary", p), ("secondary", s)])
    (n : ℤ) (h1 : -3 ≤ n) (h2 : n ≤ 3) :
    (generatePalette p s bg sf w e su a1 a2 true ls ta).lookup (name ++ shadeSuffix n) =
      some (((bg.blend color (12 / 100)).blend WHITE
        (ls / 1.5 + (n : ℚ) * (ls / 1.5) / 2)).clamped.hex) ∧
    ∀ (dark : Bool) (name' : String) (color' : Color),
      (name', color') ∈ [("primary", p), ("secondary", s), ("background", bg),
        ("surface", sf), ("warning", w), ("error", e), ("success", su),
        ("accent1", a1), ("accent2", a2)] →
      (dark && DARK_SHADES.contains name') = false →
      (generatePalette p s bg sf w e su a1 a2 dark ls ta).lookup (name' ++ shadeSuffix n) =
        some ((color'.lighten ((n : ℚ) * ls / 2)).hex) := by
  constructor
  · have hname9 : (name, color) ∈ [("primary", p), ("secondary", s), ("background", bg),
        ("surface", sf), ("warning", w), ("error", e), ("success", su),
        ("accent1", a1), ("accent2", a2)] := by
      rcases List.mem_cons.1 hname with h | h
      · exact List.mem_cons.2 (Or.inl h)
      · rcases List.mem_cons.1 h with h | h
        · exact List.mem_cons.2 (Or.inr (List.mem_cons.2 (Or.inl h)))
        · cases h
    have hflag : (true && DARK_SHADES.contains name) = true := by
      rcases List.mem_cons.1 hname with h | h
      · rw [show name = "primary" from congrArg Prod.fst h]
        decide
      · rcases List.mem_cons.1 h with h | h
        · rw [show name = "secondary" from congrArg Prod.fst h]
          decide
        · cases h
    have hmain := lookup_shade p s bg sf w e su a1 a2 true ls ta name color hname9 n h1 h2
    rw [hflag] at hmain
    simp only [if_true] at hmain
    rw [hmain]
    congr 2
    unfold shadeColor
    rw [if_pos rfl]
    rw [mul_div_assoc]
  · intro dark name' color' hname' hflag'
    have hmain := lookup_shade p s bg sf w e su a1 a2 dark ls ta name' color' hname' n h1 h2
    rw [hflag'] at hmain
    simp only [if_false, Bool.false_eq_true] at hmain
    rw [hmain]
    congr 2
    unfold shadeColor
    rw [if_neg (by simp)]
    rw [mul_div_assoc]

/-- C5: each stored shade color c (here spelled out as the loop's `shadeColor`)
yields a non-fade text entry equal to c's contrasting foreground at text_alpha,
plus exactly the two fade entries blending that foreground toward c by ratio
fade * 0.1 + 0.15, i.e. 0.25 and 0.35. -/
theorem C5_text_and_fades (p s bg sf w e su a1 a2 : Color) (dark : Bool) (ls ta : ℚ)
    (name : String) (color : Color)
    (hname : (name, color) ∈ [("primary", p), ("secondary", s), ("background", bg),
      ("surface", sf), ("warning", w), ("error", e), ("success", su),
      ("accent1", a1), ("accent2", a2)])
    (n : ℤ) (h1 : -3 ≤ n) (h2 : n ≤ 3)
    (c : Color)
    (hc : c = shadeColor bg color (dark && DARK_SHADES.contains name)
      (if dark && DARK_SHADES.contains name then ls / 1.5 else ls)
      ((n : ℚ) * ((if dark && DARK_SHADES.contains name then ls / 1.5 else ls) / 2))) :
    (generatePalette p s bg sf w e su a1 a2 dark ls ta).lookup (name ++ shadeSuffix n) =
      some (c.hex) ∧
    (generatePalette p s bg sf w e su a1 a2 dark ls ta).lookup
        ("text-" ++ name ++ shadeSuffix n) =
      some ((c.get_contrast_text ta).hex) ∧
    (generatePalette p s bg sf w e su a1 a2 dark ls ta).lookup
        ("text-" ++ name ++ shadeSuffix n ++ "-fade-1") =
      some (((c.get_contrast_text ta).blend c ((1 : ℚ) * 0.1 + 0.15)).hex) ∧
    (generatePalette p s bg sf w e su a1 a2 dark ls ta).lookup
        ("text-" ++ name ++ shadeSuffix n ++ "-fade-2") =
      some (((c.get_contrast_text ta).blend c ((2 : ℚ) * 0.1 + 0.15)).hex) ∧
    (1 : ℚ) * 0.1 + 0.15 = 0.25 ∧ (2 : ℚ) * 0.1 + 0.15 = 0.35 := by
  subst hc
  refine ⟨lookup_shade p s bg sf w e su a1 a2 dark ls ta name color hname n h1 h2,
    lookup_text p s bg sf w e su a1 a2 dark ls ta name color hname n h1 h2, ?_, ?_,
    by norm_num, by norm_num⟩
  · have hf := lookup_fade p s bg sf w e su a1 a2 dark ls ta name color hname n h1 h2 1
      (Or.inl rfl)
    rw [show ("text-" ++ name ++ shadeSuffix n ++ "-fade-" ++ toString (1 : ℕ)) =
      ("text-" ++ name ++ shadeSuffix n ++ "-fade-1") from by rw [String.append_assoc]; rfl] at hf
    exact_mod_cast hf
  · have hf := lookup_fade p s bg sf w e su a1 a2 dark ls ta name color hname n h1 h2 2
      (Or.inr rfl)
    rw [show ("text-" ++ name ++ shadeSuffix n ++ "-fade-" ++ toString (2 : ℕ)) =
      ("text-" ++ name ++ shadeSuffix n ++ "-fade-2") from by rw [String.append_assoc]; rfl] at hf
    exact_mod_cast hf

/-- C10: with luminosity_spread = 0, every base name to which the dark blending
rule is not applied has all seven shade entries equal to the base color's hex
(each being lighten 0 of it), and the text and fade entries coincide across the
seven shades as well. -/
theorem C10_zero_spread (p s bg sf w e su a1 a2 : Color) (dark : Bool) (ta : ℚ)
    (name : String) (color : Color)
    (hname : (name, color) ∈ [("primary", p), ("secondary", s), ("background", bg),
      ("surface", sf), ("warning", w), ("error", e), ("success", su),
      ("accent1", a1), ("accent2", a2)])
    (hnd : dark = false ∨ name ∉ DARK_SHADES)
    (n : ℤ) (h1 : -3 ≤ n) (h2 : n ≤ 3) :
    (generatePalette p s bg sf w e su a1 a2 dark 0 ta).lookup (name ++ shadeSuffix n) =
      some ((color.lighten 0).hex) ∧
    (generatePalette p s bg sf w e su a1 a2 dark 0 ta).lookup name =
      some ((color.lighten 0).hex) ∧
    (generatePalette p s bg sf w e su a1 a2 dark 0 ta).lookup
        ("text-" ++ name ++ shadeSuffix n) =
      some ((color.get_contrast_text ta).hex) ∧
    (generatePalette p s bg sf w e su a1 a2 dark 0 ta).lookup
        ("text-" ++ name ++ shadeSuffix n ++ "-fade-1") =
      some (((color.get_contrast_text ta).blend color ((1 : ℚ) * 0.1 + 0.15)).hex) ∧
    (generatePalette p s bg sf w e su a1 a2 dark 0 ta).lookup
        ("text-" ++ name ++ shadeSuffix n ++ "-fade-2") =
      some (((color.get_contrast_text ta).blend color ((2 : ℚ) * 0.1 + 0.15)).hex) ∧
    color.lighten 0 = color := by
  have hflag := dark_flag_false hnd
  have hsc : ∀ q : ℚ, shadeColor bg color (dark && DARK_SHADES.contains name)
      (if dark && DARK_SHADES.contains name then (0 : ℚ) / 1.5 else 0)
      (q * ((if dark && DARK_SHADES.contains name then (0 : ℚ) / 1.5 else 0) / 2)) =
      color := by
    intro q
    rw [hflag]
    simp only [Bool.false_eq_true, if_false]
    unfold shadeColor
    rw [if_neg (by simp)]
    rw [show (q * ((0 : ℚ) / 2)) = 0 from by ring]
    exact lighten_zero color
  refine ⟨?_, ?_, ?_, ?_, ?_, lighten_zero color⟩
  · have h := lookup_shade p s bg sf w e su a1 a2 dark 0 ta name color hname n h1 h2
    rw [hsc] at h
    rw [h, lighten_zero]
  · have h := lookup_shade p s bg sf w e su a1 a2 dark 0 ta name color hname 0
      (by decide) (by decide)
    rw [hsc (((0 : ℤ) : ℚ))] at h
    rw [show name ++ shadeSuffix 0 = name from by show name ++ "" = name; simp] at h
    rw [h, lighten_zero]
  · have h := lookup_text p s bg sf w e su a1 a2 dark 0 ta name color hname n h1 h2
    rw [hsc] at h
    exact h
  · have h := lookup_fade p s bg sf w e su a1 a2 dark 0 ta name color hname n h1 h2 1
      (Or.inl rfl)
    rw [hsc ((n : ℚ))] at h
    rw [show ("text-" ++ name ++ shadeSuffix n ++ "-fade-" ++ toString (1 : ℕ)) =
      ("text-" ++ name ++ shadeSuffix n ++ "-fade-1") from by rw [String.append_assoc]; rfl] at h
    exact_mod_cast h
  · have h := lookup_fade p s bg sf w e su a1 a2 dark 0 ta name color hname n h1 h2 2
      (Or.inr rfl)
    rw [hsc ((n : ℚ))] at h
    rw [show ("text-" ++ name ++ shadeSuffix n ++ "-fade-" ++ toString (2 : ℕ)) =
      ("text-" ++ name ++ shadeSuffix n ++ "-fade-2") from by rw [String.append_assoc]; rfl] at h
    exact_mod_cast h

/-- C2: unset optional fields resolve as secondary/warning/accent1 to primary,
error/success/accent2 to the resolved secondary (itself possibly primary), and
background/surface to the fixed dark- or light-mode default strings; with only
primary set, all six chromatic fallbacks resolve to primary. -/
theorem C2_fallback_chain (cs : ColorSystem) (dark : Bool) (ls ta : ℚ) (pc : Color)
    (hp : Color.parse cs._primary = .ok pc)
    (hw : cs._warning = none) (he : cs._error = none) (hsu : cs._success = none)
    (ha1 : cs._accent1 = none) (ha2 : cs._accent2 = none)
    (hb : cs._background = none) (hsf : cs._surface = none) :
    ∃ bg sf : Color,
      Color.parse (if dark then DEFAULT_DARK_BACKGROUND else DEFAULT_LIGHT_BACKGROUND) =
        .ok bg ∧
      Color.parse (if dark then DEFAULT_DARK_SURFACE else DEFAULT_LIGHT_SURFACE) =
        .ok sf ∧
      (cs._secondary = none →
        cs.generate dark ls ta =
          .ok (generatePalette pc pc bg sf pc pc pc pc pc dark ls ta)) ∧
      (∀ sstr sc, cs._secondary = some sstr → Color.parse sstr = .ok sc →
        cs.generate dark ls ta =
          .ok (generatePalette pc sc bg sf pc sc sc pc sc dark ls ta)) := by
  cases dark
  · refine ⟨_, _, rfl, rfl, ?_, ?_⟩
    · intro hs
      unfold ColorSystem.generate
      simp [ColorSystem.primary, ColorSystem.secondary, ColorSystem.warning,
        ColorSystem.error, ColorSystem.success, ColorSystem.accent1, ColorSystem.accent2,
        ColorSystem.background, ColorSystem.surface, readColorProperty,
        hp, hs, hw, he, hsu, ha1, ha2, hb, hsf, bind, Except.bind, Except.map]
      rfl
    · intro sstr sc hs hsc
      unfold ColorSystem.generate
      simp [ColorSystem.primary, ColorSystem.secondary, ColorSystem.warning,
        ColorSystem.error, ColorSystem.success, ColorSystem.accent1, ColorSystem.accent2,
        ColorSystem.background, ColorSystem.surface, readColorProperty,
        hp, hs, hsc, hw, he, hsu, ha1, ha2, hb, hsf, bind, Except.bind, Except.map]
      rfl
  · refine ⟨_, _, rfl, rfl, ?_, ?_⟩
    · intro hs
      unfold ColorSystem.generate
      simp [ColorSystem.primary, ColorSystem.secondary, ColorSystem.warning,
        ColorSystem.error, ColorSystem.success, ColorSystem.accent1, ColorSystem.accent2,
        ColorSystem.background, ColorSystem.surface, readColorProperty,
        hp, hs, hw, he, hsu, ha1, ha2, hb, hsf, bind, Except.bind, Except.map]
      rfl
    · intro sstr sc hs hsc
      unfold ColorSystem.generate
      simp [ColorSystem.primary, ColorSystem.secondary, ColorSystem.warning,
        ColorSystem.error, ColorSystem.success, ColorSystem.accent1, ColorSystem.accent2,
        ColorSystem.background, ColorSystem.surface, readColorProperty,
        hp, hs, hsc, hw, he, hsu, ha1, ha2, hb, hsf, bind, Except.bind, Except.map]
      rfl

set_option maxRecDepth 10000 in
/-- C6: generation is all-or-nothing: either every semantic color resolves and
the full 252-entry mapping is produced, or the result is a parse failure that
arose from reading one of the color fields during fallback resolution (the
shade-expansion stage itself, `generatePalette`, is a total function). -/
theorem C6_no_partial (cs : ColorSystem) (dark : Bool) (ls ta : ℚ) :
    (∃ m, cs.generate dark ls ta = .ok m ∧ m.length = 252) ∨
    (∃ err, cs.generate dark ls ta = .error err ∧
      (cs.primary = .error err ∨ cs.secondary = .error err ∨ cs.warning = .error err ∨
       cs.error = .error err ∨ cs.success = .error err ∨ cs.accent1 = .error err ∨
       cs.accent2 = .error err ∨ cs.background = .error err ∨
       cs.surface = .error err)) := by
  rcases hgen : cs.generate dark ls ta with err | m
  · right
    refine ⟨err, rfl, ?_⟩
    unfold ColorSystem.generate at hgen
    simp only [bind, Except.bind, pure, Except.pure] at hgen
    cases dark <;> (
      repeat' split at hgen
      all_goals (try cases hgen)
      all_goals tauto)
  · left
    refine ⟨m, rfl, ?_⟩
    obtain ⟨p, s, bg, sf, w, e, su, a1, a2, hm⟩ := generate_ok cs dark ls ta m hgen
    subst hm
    have hkeys := palette_keys_eq p s bg sf w e su a1 a2 dark ls ta
    calc (generatePalette p s bg sf w e su a1 a2 dark ls ta).length
        = ((generatePalette p s bg sf w e su a1 a2 dark ls ta).map Prod.fst).length :=
          (List.length_map _ _).symm
      _ = allPaletteKeys.length := by rw [hkeys]
      _ = 252 := by decide

/-- C7: constructing a ColorSystem stores every designer string verbatim and
performs no parsing, so construction always succeeds even with a malformed
color string; the parse failure surfaces exactly when that field is first
read, and reading any other field is unaffected. -/
theorem C7_lazy_parse (p sstr perr : String) (c : Color)
    (hp : Color.parse p = .ok c) (hbad : Color.parse sstr = .error perr) :
    (ColorSystem.mk p (some sstr) none none none none none none none)._primary = p ∧
    (ColorSystem.mk p (some sstr) none none none none none none none)._secondary =
      some sstr ∧
    (ColorSystem.mk p (some sstr) none none none none none none none).primary = .ok c ∧
    (ColorSystem.mk p (some sstr) none none none none none none none).secondary =
      .error perr ∧
    (ColorSystem.mk p (some sstr) none none none none none none none).warning =
      .ok none ∧
    (ColorSystem.mk p (some sstr) none none none none none none none).error =
      .ok none ∧
    (ColorSystem.mk p (some sstr) none none none none none none none).success =
      .ok none ∧
    (ColorSystem.mk p (some sstr) none none none none none none none).accent1 =
      .ok none ∧
    (ColorSystem.mk p (some sstr) none none none none none none none).accent2 =
      .ok none ∧
    (ColorSystem.mk p (some sstr) none none none none none none none).background =
      .ok none ∧
    (ColorSystem.mk p (some sstr) none none none none none none none).surface =
      .ok none := by
  refine ⟨rfl, rfl, ?_, ?_, rfl, rfl, rfl, rfl, rfl, rfl, rfl⟩
  · simpa [ColorSystem.primary] using hp
  · simp [ColorSystem.secondary, readColorProperty, hbad, Except.map]

/-- C8 counterexample: assigning to a descriptor-backed field through
`ColorProperty.__set__` does change a stored field after construction: setting
`secondary` on a system constructed with only `primary` changes `_secondary`
from unset to the assigned string. -/
theorem C8_counterexample :
    (ColorProperty.set { _primary := "#005EA8" } ColorField.secondary
        (Sum.inr (some "#ff0000")))._secondary = some "#ff0000" ∧
    ({ _primary := "#005EA8" } : ColorSystem)._secondary = none :=
  ⟨rfl, rfl⟩

/-- C8 amended: `primary` is read-only (it has no setter, so no descriptor
assignment touches `_primary`), but the eight ColorProperty-backed fields are
mutable: `ColorProperty.__set__` overwrites the stored raw value with a
Color's css string, or with the assigned value verbatim. -/
theorem C8_amended_set_semantics (cs : ColorSystem) (f : ColorField)
    (v : Color ⊕ Option String) :
    rawField (ColorProperty.set cs f v) f =
      (match v with
       | .inl c => some c.css
       | .inr r => r) ∧
    (ColorProperty.set cs f v)._primary = cs._primary := by
  cases f <;> cases v <;> exact ⟨rfl, rfl⟩

theorem toList_append_eq (a b : String) : (a ++ b).toList = a.toList ++ b.toList :=
  String.data_append a b

theorem toList_mk_eq (l : List Char) : (String.mk l).toList = l := rfl

theorem hexDigitChar_mem (k : ℕ) :
    "0123456789abcdef".toList.contains (hexDigitChar k) = true := by
  unfold hexDigitChar
  rcases Nat.lt_or_ge k 16 with h | h
  · interval_cases k <;> decide
  · rw [List.getD_eq_default _ _ (le_trans (by decide) h)]
    decide

theorem hex_isRgb (c : Color) : isRgbHexString c.hex = true := by
  unfold Color.hex isRgbHexString toHexByte
  simp only [toList_append_eq, toList_mk_eq, List.cons_append, List.nil_append,
    show "#".toList = ['#'] from rfl]
  simp only [List.all_cons, List.all_nil, hexDigitChar_mem, Bool.and_true,
    Bool.true_and, Bool.and_self, List.length_cons, List.length_nil]
  decide

theorem palette_value_is_hex (p s bg sf w e su a1 a2 : Color) (dark : Bool) (ls ta : ℚ) :
    ∀ kv ∈ generatePalette p s bg sf w e su a1 a2 dark ls ta, ∃ c : Color, kv.2 = c.hex := by
  intro kv hkv
  unfold generatePalette at hkv
  rcases List.mem_flatMap.1 hkv with ⟨nc, hnc, hkv2⟩
  rcases List.mem_flatMap.1 hkv2 with ⟨sd, hsd, hkv3⟩
  rcases List.mem_cons.1 hkv3 with heq | htl
  · exact ⟨_, congrArg Prod.snd heq⟩
  · rcases List.mem_map.1 htl with ⟨fade, hfade, heq⟩
    by_cases hf : fade > 0
    · rw [if_pos hf] at heq
      exact ⟨_, congrArg Prod.snd heq.symm⟩
    · rw [if_neg hf] at heq
      exact ⟨_, congrArg Prod.snd heq.symm⟩

/-- C9: every value stored in a successfully generated palette, the text and
fade entries included, is a hex string of the form given by `isRgbHexString`:
a hash mark followed by exactly six lowercase hexadecimal digits. -/
theorem C9_hex_form (cs : ColorSystem) (dark : Bool) (ls ta : ℚ)
    (m : List (String × String)) (h : cs.generate dark ls ta = .ok m) :
    ∀ kv ∈ m, isRgbHexString kv.2 = true := by
  obtain ⟨p, s, bg, sf, w, e, su, a1, a2, hm⟩ := generate_ok cs dark ls ta m h
  subst hm
  intro kv hkv
  obtain ⟨c, hc⟩ := palette_value_is_hex p s bg sf w e su a1 a2 dark ls ta kv hkv
  rw [hc]
  exact hex_isRgb c

theorem lookup_isSome_of_mem_keys {α β : Type} [BEq α] [LawfulBEq α]
    {l : List (α × β)} {k : α} (h : k ∈ l.map Prod.fst) : (l.lookup k).isSome = true := by
  induction l with
  | nil => cases h
  | cons hd tl ih =>
    rcases List.mem_cons.1 h with heq | htl
    · rw [List.lookup, heq]
      simp
    · by_cases hk : (k == hd.1) = true
      · rw [List.lookup, hk]
        rfl
      · rw [List.lookup, Bool.of_not_eq_true hk]
        exact ih htl

set_option maxRecDepth 10000 in
/-- C1: a successful generate call returns exactly 252 entries with pairwise
distinct names: the 63 base/shade names (9 color names times 7 shades), and for
each shade name s the name text-s plus the two names text-s-fade-1 and
text-s-fade-2; every such name is present with a (non-null) value. -/
theorem C1_completeness (cs : ColorSystem) (dark : Bool) (ls ta : ℚ)
    (m : List (String × String)) (h : cs.generate dark ls ta = .ok m) :
    m.length = 252 ∧ ColorSystem.COLOR_NAMES.length = 9 ∧
    ColorSystem.shades.length = 63 ∧ (m.map Prod.fst).Nodup ∧
    m.map Prod.fst = allPaletteKeys ∧
    ∀ sh ∈ ColorSystem.shades,
      sh ∈ m.map Prod.fst ∧ ("text-" ++ sh) ∈ m.map Prod.fst ∧
      ("text-" ++ sh ++ "-fade-1") ∈ m.map Prod.fst ∧
      ("text-" ++ sh ++ "-fade-2") ∈ m.map Prod.fst ∧
      (m.lookup sh).isSome = true ∧ (m.lookup ("text-" ++ sh)).isSome = true ∧
      (m.lookup ("text-" ++ sh ++ "-fade-1")).isSome = true ∧
      (m.lookup ("text-" ++ sh ++ "-fade-2")).isSome = true := by
  obtain ⟨p, s, bg, sf, w, e, su, a1, a2, hm⟩ := generate_ok cs dark ls ta m h
  subst hm
  have hkeys := palette_keys_eq p s bg sf w e su a1 a2 dark ls ta
  refine ⟨?_, by decide, by decide, palette_keys_nodup p s bg sf w e su a1 a2 dark ls ta,
    hkeys, ?_⟩
  · calc (generatePalette p s bg sf w e su a1 a2 dark ls ta).length
        = ((generatePalette p s bg sf w e su a1 a2 dark ls ta).map Prod.fst).length :=
          (List.length_map _ _).symm
      _ = allPaletteKeys.length := by rw [hkeys]
      _ = 252 := by decide
  · intro sh hsh
    have h1 : sh ∈ allPaletteKeys :=
      List.mem_flatMap.2 ⟨sh, hsh, by simp⟩
    have h2 : ("text-" ++ sh) ∈ allPaletteKeys :=
      List.mem_flatMap.2 ⟨sh, hsh, by simp⟩
    have h3 : ("text-" ++ sh ++ "-fade-1") ∈ allPaletteKeys :=
      List.mem_flatMap.2 ⟨sh, hsh, by simp⟩
    have h4 : ("text-" ++ sh ++ "-fade-2") ∈ allPaletteKeys :=
      List.mem_flatMap.2 ⟨sh, hsh, by simp⟩
    rw [hkeys]
    exact ⟨h1, h2, h3, h4,
      lookup_isSome_of_mem_keys (hkeys ▸ h1), lookup_isSome_of_mem_keys (hkeys ▸ h2),
      lookup_isSome_of_mem_keys (hkeys ▸ h3), lookup_isSome_of_mem_keys (hkeys ▸ h4)⟩

theorem C1_witness : examplePalette.length = 252 :=
  (C1_completeness exampleSystem false 0.15 0.9 examplePalette rfl).1

theorem C9_witness : examplePalette.all (fun kv => isRgbHexString kv.2) = true :=
  List.all_eq_true.2 (C9_hex_form exampleSystem false 0.15 0.9 examplePalette rfl)

theorem C2_witness :
    primaryOnlySystem.generate false 0.15 0.9 =
      .ok (generatePalette ⟨0, 94, 168, 1⟩ ⟨0, 94, 168, 1⟩ ⟨245, 245, 245, 1⟩
        ⟨239, 239, 239, 1⟩ ⟨0, 94, 168, 1⟩ ⟨0, 94, 168, 1⟩ ⟨0, 94, 168, 1⟩
        ⟨0, 94, 168, 1⟩ ⟨0, 94, 168, 1⟩ false 0.15 0.9) := by
  obtain ⟨bg, sf, hbg, hsf, h1, h2⟩ :=
    C2_fallback_chain primaryOnlySystem false 0.15 0.9 ⟨0, 94, 168, 1⟩ rfl rfl rfl rfl
      rfl rfl rfl rfl
  have hbg2 : Except.ok bg = Except.ok (⟨245, 245, 245, 1⟩ : Color) :=
    hbg.symm.trans rfl
  have hsf2 : Except.ok sf = Except.ok (⟨239, 239, 239, 1⟩ : Color) :=
    hsf.symm.trans rfl
  injection hbg2 with hbg3
  injection hsf2 with hsf3
  subst hbg3
  subst hsf3
  exact h1 rfl

theorem C3_witness :
    (generatePalette sampleColor sampleColor sampleBg sampleBg sampleColor sampleColor
      sampleColor sampleColor sampleColor true 0.15 0.9).lookup
        ("primary" ++ shadeSuffix (-2)) =
      some (((sampleBg.blend sampleColor (12 / 100)).blend WHITE
        ((0.15 : ℚ) / 1.5 + ((-2 : ℤ) : ℚ) * ((0.15 : ℚ) / 1.5) / 2)).clamped.hex) :=
  (C3_dark_blending sampleColor sampleColor sampleBg sampleBg sampleColor sampleColor
    sampleColor sampleColor sampleColor 0.15 0.9 "primary" sampleColor
    (List.mem_cons_self _ _) (-2) (by decide) (by decide)).1

theorem C4_witness :
    (generatePalette sampleColor sampleColor sampleBg sampleBg sampleColor sampleColor
      sampleColor sampleColor sampleColor true 0.15 0.9).lookup
        ("warning" ++ shadeSuffix 3) =
      some ((sampleColor.lighten (((3 : ℤ) : ℚ) * (0.15 : ℚ) / 2)).hex) :=
  (C4_normal_lighten sampleColor sampleColor sampleBg sampleBg sampleColor sampleColor
    sampleColor sampleColor sampleColor true 0.15 0.9 "warning" sampleColor
    (by simp) (Or.inr (by decide)) 3 (by decide) (by decide)).1

theorem C5_witness :
    (generatePalette sampleColor sampleColor sampleBg sampleBg sampleColor sampleColor
      sampleColor sampleColor sampleColor false 0.15 0.9).lookup
        ("text-" ++ "success" ++ shadeSuffix 0) =
      some (((shadeColor sampleBg sampleColor (false && DARK_SHADES.contains "success")
        (if false && DARK_SHADES.contains "success" then (0.15 : ℚ) / 1.5 else 0.15)
        (((0 : ℤ) : ℚ) *
          ((if false && DARK_SHADES.contains "success" then (0.15 : ℚ) / 1.5 else 0.15) /
            2))).get_contrast_text (0.9 : ℚ)).hex) :=
  (C5_text_and_fades sampleColor sampleColor sampleBg sampleBg sampleColor sampleColor
    sampleColor sampleColor sampleColor false 0.15 0.9 "success" sampleColor
    (by simp) 0 (by decide) (by decide) _ rfl).2.1

theorem C7_witness :
    (ColorSystem.mk "#005EA8" (some "oops") none none none none none none
      none).secondary = .error "oops is not a valid color" :=
  (C7_lazy_parse "#005EA8" "oops" "oops is not a valid color" ⟨0, 94, 168, 1⟩ rfl
    rfl).2.2.2.1

theorem C10_witness :
    (generatePalette sampleColor sampleColor sampleBg sampleBg sampleColor sampleColor
      sampleColor sampleColor sampleColor false 0 0.9).lookup
        ("error" ++ shadeSuffix (-1)) =
      some ((sampleColor.lighten 0).hex) :=
  (C10_zero_spread sampleColor sampleColor sampleBg sampleBg sampleColor sampleColor
    sampleColor sampleColor sampleColor false 0.9 "error" sampleColor
    (by simp) (Or.inl rfl) (-1) (by decide) (by decide)).1
